import Mathlib

/-!
Verification of the Simple MCP Server core (tool catalog, argument validator,
handler set, dispatcher) as a shallow embedding of the Python sources
`simple_mcp_server/tools.py`, `simple_mcp_server/handlers.py` and
`simple_mcp_server/server.py`.

Modelling conventions:
* Python dynamic values supplied in an argument map are modelled by `MCP.Value`
  (the data model restricts argument values to string / number / boolean;
  `Value.none` stands for Python `None` and exercises the non-coercible path).
* Python `float` is modelled by `Rat`; `float(x)` coercion is `MCP.pyFloat?`
  and the decimal rendering used by f-strings is `MCP.floatStr` (finite
  decimal expansion, which agrees with CPython on the small values the
  handlers format; binary rounding, `inf`/`nan` and digit underscores are
  not modelled).
* Exact wording of messages produced by the Python runtime itself (e.g. the
  text of a `ValueError` raised by `float`) is modelled loosely; messages
  written literally in the repository sources are reproduced verbatim,
  except that ASCII quotes inside them are omitted.
* `datetime.now()` and `sys.version_info` are environment inputs; they are
  passed explicitly as `MCP.PyDateTime` / `MCP.PyEnv`.
* A handler that `raise`s is modelled as returning `Except.error`; the
  dispatcher (`handle_call_tool`) catches that and flattens it into a text
  content block, exactly as `server.py` does.
-/

namespace MCP

/-- Dynamically-typed Python value as it appears in an MCP argument map. -/
inductive Value where
  | str (s : String)
  | int (n : Int)
  | float (q : Rat)
  | bool (b : Bool)
  | none
deriving DecidableEq, Repr

/-- A Python dict of tool arguments: association list from name to value. -/
abbrev ArgumentMap := List (String × Value)

/-- Dict lookup: `arguments.get(key)`. -/
def getArg (arguments : ArgumentMap) (key : String) : Option Value :=
  (arguments.find? (fun p => p.1 == key)).map (fun p => p.2)

/-- Dict containment: `key in arguments`. -/
def hasArg (arguments : ArgumentMap) (key : String) : Bool :=
  (getArg arguments key).isSome

/-- Dict lookup with default: `arguments.get(key, dflt)`. -/
def getArgD (arguments : ArgumentMap) (key : String) (dflt : Value) : Value :=
  (getArg arguments key).getD dflt

/-- Python `isinstance(v, str)`. -/
def isPyStr : Value → Bool
  | Value.str _ => true
  | _ => false

/-- Python `isinstance(v, (int, float))`.  Note that `bool` is a subclass of
`int` in Python, so booleans satisfy this check. -/
def isPyNumber : Value → Bool
  | Value.int _ => true
  | Value.float _ => true
  | Value.bool _ => true
  | _ => false

/-- Python `isinstance(v, bool)`. -/
def isPyBool : Value → Bool
  | Value.bool _ => true
  | _ => false

/-- Python truthiness of a value (`if v:`). -/
def pyTruthy : Value → Bool
  | Value.str s => s ≠ ""
  | Value.int n => n ≠ 0
  | Value.float q => q ≠ 0
  | Value.bool b => b
  | Value.none => false

/-- Value of a list of decimal digit characters. -/
def digitsVal (ds : List Char) : Nat :=
  ds.foldl (fun a c => a * 10 + (c.toNat - 48)) 0

/-- Digits of the fractional expansion of `r / d`, with fuel bounding the
number of digits produced (Python float repr never needs more than 17). -/
def fracDigits : Nat → Nat → Nat → List Nat
  | 0, _, _ => []
  | _ + 1, 0, _ => []
  | fuel + 1, r, d => (r * 10 / d) :: fracDigits fuel (r * 10 % d) d

/-- Decimal rendering of a modelled float, as produced by `str`/f-strings:
an integral value `15` renders as `"15.0"`, `5/2` renders as `"2.5"`. -/
def floatStr (q : Rat) : String :=
  let sgn := if q < 0 then "-" else ""
  let n := q.num.natAbs
  let d := q.den
  let ds := fracDigits 17 (n % d) d
  let frac := if ds.isEmpty then "0" else String.join (ds.map (fun k => toString k))
  sgn ++ toString (n / d) ++ "." ++ frac

/-- Python `str(v)` as applied by an f-string. -/
def pyStr : Value → String
  | Value.str s => s
  | Value.int n => toString n
  | Value.float q => floatStr q
  | Value.bool b => if b then "True" else "False"
  | Value.none => "None"

/-- Whitespace characters stripped by Python `float` around a numeric
string. -/
def isPySpace (c : Char) : Bool :=
  ([' ', '\t', '\n', '\r', '\x0b', '\x0c'] : List Char).contains c

/-- Strip leading and trailing whitespace from a character list. -/
def stripChars (cs : List Char) : List Char :=
  ((cs.dropWhile isPySpace).reverse.dropWhile isPySpace).reverse

/-- Python `float(s)` on a string: parses an optionally signed finite decimal
literal with optional exponent, allowing surrounding whitespace. -/
def strToFloat? (s : String) : Option Rat :=
  let cs := stripChars s.data
  let sgnAndRest : Int × List Char :=
    match cs with
    | '+' :: r => (1, r)
    | '-' :: r => (-1, r)
    | r => (1, r)
  let sgn := sgnAndRest.1
  let afterSign := sgnAndRest.2
  let ipSplit := afterSign.span Char.isDigit
  let ip := ipSplit.1
  let afterInt := ipSplit.2
  let fracSplit : List Char × List Char :=
    match afterInt with
    | '.' :: r => r.span Char.isDigit
    | r => ([], r)
  let fp := fracSplit.1
  let rest :=
    match afterInt with
    | '.' :: r => (r.span Char.isDigit).2
    | r => r
  if ip.isEmpty && fp.isEmpty then Option.none
  else
    let mantissa : Int := sgn * (digitsVal (ip ++ fp) : Int)
    let scale : Nat := fp.length
    match rest with
    | [] => some ((mantissa : Rat) / ((10 : Rat) ^ scale))
    | c :: r =>
      if c == 'e' || c == 'E' then
        let esgnAndRest : Int × List Char :=
          match r with
          | '+' :: r2 => (1, r2)
          | '-' :: r2 => (-1, r2)
          | r2 => (1, r2)
        let edSplit := esgnAndRest.2.span Char.isDigit
        if edSplit.1.isEmpty || !edSplit.2.isEmpty then Option.none
        else
          let e : Int := esgnAndRest.1 * (digitsVal edSplit.1 : Int) - (scale : Int)
          some (if 0 ≤ e then (mantissa : Rat) * ((10 : Rat) ^ e.toNat)
                else (mantissa : Rat) / ((10 : Rat) ^ (-e).toNat))
      else Option.none

/-- Python `float(v)` coercion: succeeds on ints, floats, bools and numeric
strings; fails (raising in Python) otherwise. -/
def pyFloat? : Value → Option Rat
  | Value.int n => some (n : Rat)
  | Value.float q => some q
  | Value.bool b => some (if b then 1 else 0)
  | Value.str s => strToFloat? s
  | Value.none => Option.none

/-- Message of the exception raised by a failed `float(v)` coercion. -/
def floatCoerceErr : Value → String
  | Value.str s => "could not convert string to float: " ++ s
  | _ => "float() argument must be a string or a real number"

/-- One property of a tool input schema (`tools.py`, entries of
`inputSchema["properties"]`): a JSON type name, a description, an optional
default and an optional enum restriction. -/
structure PropertySpec where
  type : String
  description : String
  dflt : Option Value := Option.none
  enum : Option (List String) := Option.none
deriving DecidableEq, Repr

/-- The `inputSchema` dict of a tool (`tools.py`). -/
structure InputSchema where
  type : String
  properties : List (String × PropertySpec)
  required : List String
deriving DecidableEq, Repr

/-- An MCP tool descriptor (`types.Tool` as constructed in `tools.py`). -/
structure Tool where
  name : String
  description : String
  inputSchema : InputSchema
deriving DecidableEq, Repr

/-- The tool catalog: `get_all_tools` from `tools.py`, transcribed entry by
entry. -/
def get_all_tools : List Tool :=
  [ { name := "hello_world"
    , description := "A simple greeting tool that returns a hello message"
    , inputSchema :=
      { type := "object"
      , properties :=
        [ ("name",
           { type := "string"
           , description := "Name to greet (optional)"
           , dflt := some (Value.str "World") }) ]
      , required := [] } }
  , { name := "echo"
    , description := "Echo back the input message with optional prefix"
    , inputSchema :=
      { type := "object"
      , properties :=
        [ ("message",
           { type := "string"
           , description := "Message to echo back" })
        , ("prefix",
           { type := "string"
           , description := "Optional prefix to add to the message"
           , dflt := some (Value.str "Echo: ") }) ]
      , required := ["message"] } }
  , { name := "get_time"
    , description := "Get current time in various formats"
    , inputSchema :=
      { type := "object"
      , properties :=
        [ ("format",
           { type := "string"
           , description := "Time format: iso, readable, or timestamp"
           , dflt := some (Value.str "readable")
           , enum := some ["iso", "readable", "timestamp"] })
        , ("timezone",
           { type := "string"
           , description := "Timezone (e.g., UTC, US/Eastern)"
           , dflt := some (Value.str "local") }) ]
      , required := [] } }
  , { name := "math_add"
    , description := "Add two numbers together"
    , inputSchema :=
      { type := "object"
      , properties :=
        [ ("a", { type := "number", description := "First number" })
        , ("b", { type := "number", description := "Second number" }) ]
      , required := ["a", "b"] } }
  , { name := "debug_info"
    , description := "Get debug information about the MCP server"
    , inputSchema :=
      { type := "object"
      , properties :=
        [ ("include_tools",
           { type := "boolean"
           , description := "Include tool information in response"
           , dflt := some (Value.bool true) })
        , ("include_stats",
           { type := "boolean"
           , description := "Include server statistics"
           , dflt := some (Value.bool true) }) ]
      , required := [] } } ]

/-- `get_tool_by_name` from `tools.py`: linear search of the catalog, raising
(`Except.error`) when the name is absent. -/
def get_tool_by_name (name : String) : Except String Tool :=
  match get_all_tools.find? (fun t => t.name == name) with
  | some t => Except.ok t
  | Option.none => Except.error ("Tool " ++ name ++ " not found")

/-- Lookup of a property spec in a schema's `properties` dict. -/
def lookupProp (props : List (String × PropertySpec)) (field : String) :
    Option PropertySpec :=
  (props.find? (fun p => p.1 == field)).map (fun p => p.2)

/-- The per-field type check of `validate_tool_arguments`: the chain of
`isinstance` checks from `tools.py` lines 167-173.  An expected type other
than string/number/boolean is not checked. -/
def typeMatches (expected : String) (v : Value) : Bool :=
  if expected == "string" then isPyStr v
  else if expected == "number" then isPyNumber v
  else if expected == "boolean" then isPyBool v
  else true

/-- `validate_tool_arguments` from `tools.py`: catalog lookup (a lookup
failure is caught and yields `false`), then presence of every required field,
then the `isinstance` type check of every supplied field that is declared in
the schema; undeclared supplied fields are skipped. -/
def validate_tool_arguments (tool_name : String) (arguments : ArgumentMap) :
    Bool :=
  match get_tool_by_name tool_name with
  | Except.error _ => false
  | Except.ok tool =>
    tool.inputSchema.required.all (fun field => hasArg arguments field)
    && arguments.all (fun p =>
        match lookupProp tool.inputSchema.properties p.1 with
        | Option.none => true
        | some ps => typeMatches ps.type p.2)

/-- Whether a tool name is present in the catalog. -/
def knownToolName (name : String) : Bool :=
  get_all_tools.any (fun t => t.name == name)

/-- Declared JSON type of a field of a catalog tool, if any. -/
def declaredType (tool_name field : String) : Option String :=
  match get_tool_by_name tool_name with
  | Except.ok t => (lookupProp t.inputSchema.properties field).map PropertySpec.type
  | Except.error _ => Option.none

/-- Declared required field list of a catalog tool (empty for unknown names). -/
def requiredOf (tool_name : String) : List String :=
  match get_tool_by_name tool_name with
  | Except.ok t => t.inputSchema.required
  | Except.error _ => []

/-- The outputs of a `datetime.now()` call that the handlers consume: the
epoch seconds (`.timestamp()`), `.isoformat()` and the
`strftime` rendering used by the readable format. -/
structure PyDateTime where
  epochSeconds : Rat
  isoformat : String
  readable : String

/-- Environment inputs of a request: the current wall-clock reading and the
Python interpreter version string. -/
structure PyEnv where
  now : PyDateTime
  pythonVersion : String

/-- Mutable state of `SimpleMCPServer` (`server.py` lines 62-65). -/
structure ServerState where
  server_name : String
  start_time : PyDateTime
  request_count : Nat

/-- `handle_hello_world` from `handlers.py`: greets `name` (default
`"World"`) and appends the generation timestamp.  Never fails. -/
def handle_hello_world (env : PyEnv) (arguments : ArgumentMap) :
    Except String String :=
  let name := getArgD arguments "name" (Value.str "World")
  Except.ok ("Hello, " ++ pyStr name ++ "! 👋\n\nGenerated at: "
    ++ env.now.isoformat)

/-- `handle_echo` from `handlers.py`: requires `message`, concatenates the
prefix (default `"Echo: "`) and the message. -/
def handle_echo (arguments : ArgumentMap) : Except String String :=
  match getArg arguments "message" with
  | Option.none => Except.error "Missing required parameter: message"
  | some message =>
    let pfx := getArgD arguments "prefix" (Value.str "Echo: ")
    Except.ok (pyStr pfx ++ pyStr message)

/-- The suffix appended by `handle_get_time` when a non-default timezone is
supplied: the timezone is echoed back but never applied to the clock read. -/
def tzSuffix (arguments : ArgumentMap) : String :=
  let timezone := getArgD arguments "timezone" (Value.str "local")
  if timezone = Value.str "local" then ""
  else " (requested timezone: " ++ pyStr timezone ++ ")"

/-- `handle_get_time` from `handlers.py`: selects one of the three supported
renderings of the current time by the `format` argument (default
`"readable"`), raising on any other format; the `timezone` argument only
contributes the echoed suffix. -/
def handle_get_time (env : PyEnv) (arguments : ArgumentMap) :
    Except String String :=
  let time_format := getArgD arguments "format" (Value.str "readable")
  if time_format = Value.str "iso" then
    Except.ok ("Current time: " ++ env.now.isoformat ++ tzSuffix arguments)
  else if time_format = Value.str "timestamp" then
    Except.ok ("Current time: " ++ floatStr env.now.epochSeconds
      ++ tzSuffix arguments)
  else if time_format = Value.str "readable" then
    Except.ok ("Current time: " ++ env.now.readable ++ tzSuffix arguments)
  else
    Except.error ("Unknown time format: " ++ pyStr time_format)

/-- `handle_math_add` from `handlers.py`: requires `a` and `b`, coerces both
with `float(...)`, raising on a failed coercion, and formats the sum. -/
def handle_math_add (arguments : ArgumentMap) : Except String String :=
  match getArg arguments "a", getArg arguments "b" with
  | some va, some vb =>
    (match pyFloat? va with
     | Option.none =>
       Except.error ("Invalid number format: " ++ floatCoerceErr va)
     | some a =>
       match pyFloat? vb with
       | Option.none =>
         Except.error ("Invalid number format: " ++ floatCoerceErr vb)
       | some b =>
         Except.ok (floatStr a ++ " + " ++ floatStr b ++ " = "
           ++ floatStr (a + b)))
  | _, _ => Except.error "Missing required parameters: a and b"

/-- Tool summary included in the debug report when `include_tools` holds. -/
structure DebugToolInfo where
  name : String
  description : String
  required_params : List String

/-- Statistics block of the debug report. -/
structure Statistics where
  tools_available : Nat
  avg_requests_per_minute : Rat

/-- The debug report assembled by `handle_debug_info`. -/
structure DebugInfo where
  server_name : String
  start_time : String
  uptime_seconds : Rat
  request_count : Nat
  python_version : String
  timestamp : String
  tools : Option (List DebugToolInfo)
  statistics : Option Statistics

/-- Average requests per minute as computed by `handle_debug_info`
(`handlers.py` line 181): request count divided by the elapsed minutes
clamped below at 1. -/
def avg_requests_per_minute (count : Nat) (uptimeSeconds : Rat) : Rat :=
  (count : Rat) / max 1 (uptimeSeconds / 60)

/-- JSON string literal (escaping of special characters not modelled). -/
def jsonStr (s : String) : String := "\"" ++ s ++ "\""

/-- Rendering of one tool summary inside the debug report. -/
def dumpToolInfo (t : DebugToolInfo) : String :=
  "\x7b\"name\": " ++ jsonStr t.name
  ++ ", \"description\": " ++ jsonStr t.description
  ++ ", \"required_params\": ["
  ++ String.intercalate ", " (t.required_params.map jsonStr) ++ "]\x7d"

/-- Rendering of the debug report, modelling `json.dumps` (exact whitespace
of the indented Python output is not reproduced). -/
def dumpDebugInfo (i : DebugInfo) : String :=
  "\x7b\"server_name\": " ++ jsonStr i.server_name
  ++ ", \"start_time\": " ++ jsonStr i.start_time
  ++ ", \"uptime_seconds\": " ++ floatStr i.uptime_seconds
  ++ ", \"request_count\": " ++ toString i.request_count
  ++ ", \"python_version\": " ++ jsonStr i.python_version
  ++ ", \"timestamp\": " ++ jsonStr i.timestamp
  ++ (match i.tools with
      | Option.none => ""
      | some ts =>
        ", \"tools\": [" ++ String.intercalate ", " (ts.map dumpToolInfo) ++ "]")
  ++ (match i.statistics with
      | Option.none => ""
      | some st =>
        ", \"statistics\": \x7b\"tools_available\": "
        ++ toString st.tools_available
        ++ ", \"avg_requests_per_minute\": "
        ++ floatStr st.avg_requests_per_minute ++ "\x7d")
  ++ "\x7d"

/-- `handle_debug_info` from `handlers.py`: reads the shared server state and
the environment and formats a report; `include_tools` / `include_stats`
(default true) select the optional sections.  Never fails. -/
def handle_debug_info (arguments : ArgumentMap) (server : ServerState)
    (env : PyEnv) : Except String String :=
  let include_tools := pyTruthy (getArgD arguments "include_tools" (Value.bool true))
  let include_stats := pyTruthy (getArgD arguments "include_stats" (Value.bool true))
  let uptime := env.now.epochSeconds - server.start_time.epochSeconds
  let toolInfos : Option (List DebugToolInfo) :=
    if include_tools then
      some (get_all_tools.map (fun t =>
        { name := t.name
        , description := t.description
        , required_params := t.inputSchema.required }))
    else Option.none
  let stats : Option Statistics :=
    if include_stats then
      some { tools_available := (toolInfos.getD []).length
           , avg_requests_per_minute :=
               avg_requests_per_minute server.request_count uptime }
    else Option.none
  let info : DebugInfo :=
    { server_name := server.server_name
    , start_time := server.start_time.isoformat
    , uptime_seconds := uptime
    , request_count := server.request_count
    , python_version := env.pythonVersion
    , timestamp := env.now.isoformat
    , tools := toolInfos
    , statistics := stats }
  Except.ok ("🔍 MCP Server Debug Information\n\n" ++ dumpDebugInfo info)

/-- One content block of a call_tool response (`types.TextContent`). -/
inductive ContentBlock where
  | text (text : String)
deriving DecidableEq, Repr

/-- The routing chain of `handle_call_tool` (`server.py` lines 117-131):
string-compare the tool name against the five known tools; an unknown name
produces the error message as an ordinary (non-raising) string result. -/
def routeTool (server : ServerState) (env : PyEnv) (name : String)
    (arguments : ArgumentMap) : Except String String :=
  if name = "hello_world" then handle_hello_world env arguments
  else if name = "echo" then handle_echo arguments
  else if name = "get_time" then handle_get_time env arguments
  else if name = "math_add" then handle_math_add arguments
  else if name = "debug_info" then handle_debug_info arguments server env
  else Except.ok ("Unknown tool: " ++ name)

/-- `handle_call_tool` from `server.py`: increments the request counter,
routes to the handler (which sees the already-incremented state), wraps a
string result in a single text content block, and catches any handler
exception, flattening it into a text content block of the same shape. -/
def handle_call_tool (server : ServerState) (env : PyEnv) (name : String)
    (arguments : ArgumentMap) : ServerState × List ContentBlock :=
  let server' := { server with request_count := server.request_count + 1 }
  match routeTool server' env name arguments with
  | Except.ok s => (server', [ContentBlock.text s])
  | Except.error e =>
    (server', [ContentBlock.text ("Error executing tool " ++ name ++ ": " ++ e)])

/-- `handle_list_tools` from `server.py`: increments the counter and returns
the catalog. -/
def handle_list_tools (server : ServerState) : ServerState × List Tool :=
  ({ server with request_count := server.request_count + 1 }, get_all_tools)

/-- An MCP prompt descriptor (this server exposes none). -/
structure Prompt where
  name : String

/-- Result type of a get_prompt request (never produced by this server). -/
structure GetPromptResult where
  description : String

/-- `handle_list_prompts` from `server.py`: increments the counter and
returns the empty prompt list. -/
def handle_list_prompts (server : ServerState) : ServerState × List Prompt :=
  ({ server with request_count := server.request_count + 1 }, [])

/-- `handle_get_prompt` from `server.py`: increments the counter and then
always raises, since no prompts exist. -/
def handle_get_prompt (server : ServerState) (name : String)
    (_arguments : ArgumentMap) : ServerState × Except String GetPromptResult :=
  ({ server with request_count := server.request_count + 1 },
   Except.error ("No prompt named " ++ name))

/-- A fixed environment used to instantiate universally quantified theorems
at concrete inputs. -/
def envExample : PyEnv :=
  { now := { epochSeconds := 0
           , isoformat := "1970-01-01T00:00:00"
           , readable := "1970-01-01 00:00:00" }
  , pythonVersion := "3.11.0" }

/-- A fixed freshly-initialized server state for concrete instantiations. -/
def stateExample : ServerState :=
  { server_name := "simple-mcp-debug"
  , start_time := envExample.now
  , request_count := 0 }

/-- Substring test (`pat in s` in Python). -/
def strContains (s pat : String) : Bool :=
  decide (List.IsInfix pat.toList s.toList)

/-- The three state-frame conditions of a request operation: the counter
grows by exactly one, the name and the start time are untouched. -/
def frameOk (old new : ServerState) : Prop :=
  new.request_count = old.request_count + 1
  ∧ new.server_name = old.server_name
  ∧ new.start_time = old.start_time

/-- Claim C1: for every tool name and argument map, dispatch delivers both
success and failure outcomes as a single text content block of the same
shape, and a handler failure is flattened into the textual message
`Error executing tool name: e` instead of propagating: `handle_call_tool` is
a total function whose response component is always one text block. -/
theorem call_tool_catches_handler_errors (server : ServerState) (env : PyEnv)
    (name : String) (arguments : ArgumentMap) :
    (∃ s, (handle_call_tool server env name arguments).2 = [ContentBlock.text s])
    ∧ (∀ e,
        routeTool { server with request_count := server.request_count + 1 }
          env name arguments = Except.error e →
        (handle_call_tool server env name arguments).2
          = [ContentBlock.text ("Error executing tool " ++ name ++ ": " ++ e)]) := by
  constructor
  · cases h : routeTool { server with request_count := server.request_count + 1 }
      env name arguments with
    | ok s => exact ⟨s, by simp [handle_call_tool, h]⟩
    | error e =>
      exact ⟨"Error executing tool " ++ name ++ ": " ++ e,
        by simp [handle_call_tool, h]⟩
  · intro e he
    simp [handle_call_tool, he]

/-- Witness for C1 at a concrete failing handler call: `echo` with no
arguments fails, and the dispatcher flattens the failure into a text block. -/
theorem call_tool_catches_handler_errors_witness :
    (handle_call_tool stateExample envExample "echo" []).2
      = [ContentBlock.text
          ("Error executing tool " ++ "echo" ++ ": "
            ++ "Missing required parameter: message")] :=
  (call_tool_catches_handler_errors stateExample envExample "echo" []).2
    "Missing required parameter: message" (by rfl)

/-- Claim C2: for every tool name not in the catalog, dispatch produces the
error result with message `Unknown tool: name`, no handler output appears,
and the request counter is still incremented by that call. -/
theorem call_tool_unknown_tool (server : ServerState) (env : PyEnv)
    (name : String) (arguments : ArgumentMap)
    (h : knownToolName name = false) :
    handle_call_tool server env name arguments
      = ({ server with request_count := server.request_count + 1 },
         [ContentBlock.text ("Unknown tool: " ++ name)])
    ∧ (handle_call_tool server env name arguments).1.request_count
        = server.request_count + 1 := by
  simp only [knownToolName, get_all_tools, List.any_cons, List.any_nil,
    Bool.or_eq_false_iff, beq_eq_false_iff_ne, ne_eq] at h
  obtain ⟨h1, h2, h3, h4, h5, -⟩ := h
  have hr : routeTool { server with request_count := server.request_count + 1 }
      env name arguments = Except.ok ("Unknown tool: " ++ name) := by
    simp only [routeTool]
    rw [if_neg (fun hh => h1 hh.symm), if_neg (fun hh => h2 hh.symm),
      if_neg (fun hh => h3 hh.symm), if_neg (fun hh => h4 hh.symm),
      if_neg (fun hh => h5 hh.symm)]
  constructor
  · simp [handle_call_tool, hr]
  · simp [handle_call_tool, hr]

/-- Witness for C2: dispatching the name `nonexistent_tool` on a fresh state
yields the unknown-tool text and increments the counter from 0 to 1. -/
theorem call_tool_unknown_tool_witness :
    handle_call_tool stateExample envExample "nonexistent_tool" []
      = ({ stateExample with request_count := stateExample.request_count + 1 },
         [ContentBlock.text ("Unknown tool: " ++ "nonexistent_tool")]) :=
  (call_tool_unknown_tool stateExample envExample "nonexistent_tool" []
    (by decide)).1

/-- Claim C7: the catalog's list operation returns the same five tool
descriptors with identical content and order on every call, independent of
the server state reached by prior requests. -/
theorem list_tools_deterministic :
    (∀ s1 s2 : ServerState,
      (handle_list_tools s1).2 = (handle_list_tools s2).2)
    ∧ (∀ s : ServerState, (handle_list_tools s).2 = get_all_tools)
    ∧ get_all_tools.map Tool.name
        = ["hello_world", "echo", "get_time", "math_add", "debug_info"]
    ∧ get_all_tools.length = 5 :=
  ⟨fun _ _ => rfl, fun _ => rfl, rfl, rfl⟩

/-- Claim C8: for every server state and non-negative uptime, the average
requests per minute divides the request count by the elapsed minutes clamped
below at 1, so the divisor is at least 1 (in particular nonzero), and
`handle_debug_info` succeeds. -/
theorem debug_info_avg_divisor_safe (server : ServerState) (env : PyEnv)
    (arguments : ArgumentMap)
    (_h : 0 ≤ env.now.epochSeconds - server.start_time.epochSeconds) :
    (1 ≤ max 1 ((env.now.epochSeconds - server.start_time.epochSeconds) / 60)
     ∧ max 1 ((env.now.epochSeconds - server.start_time.epochSeconds) / 60) ≠ 0)
    ∧ avg_requests_per_minute server.request_count
        (env.now.epochSeconds - server.start_time.epochSeconds)
      = (server.request_count : Rat)
        / max 1 ((env.now.epochSeconds - server.start_time.epochSeconds) / 60)
    ∧ ∃ s, handle_debug_info arguments server env = Except.ok s := by
  refine ⟨⟨le_max_left _ _, ?_⟩, rfl, ⟨_, rfl⟩⟩
  exact ne_of_gt (lt_of_lt_of_le zero_lt_one (le_max_left _ _))

/-- Witness for C8 on a fresh state with zero uptime: the clamped divisor is
at least one. -/
theorem debug_info_avg_divisor_safe_witness :
    1 ≤ max 1 ((envExample.now.epochSeconds
      - stateExample.start_time.epochSeconds) / 60) :=
  (debug_info_avg_divisor_safe stateExample envExample []
    (by norm_num [envExample, stateExample])).1.1

/-- Claim C9: every inbound operation (list_tools, call_tool with any name
and arguments, list_prompts, get_prompt) increments `request_count` by
exactly one and leaves `server_name` and `start_time` unchanged. -/
theorem request_ops_frame (server : ServerState) (env : PyEnv)
    (name pname : String) (arguments pargs : ArgumentMap) :
    frameOk server (handle_list_tools server).1
    ∧ frameOk server (handle_call_tool server env name arguments).1
    ∧ frameOk server (handle_list_prompts server).1
    ∧ frameOk server (handle_get_prompt server pname pargs).1 := by
  refine ⟨⟨rfl, rfl, rfl⟩, ?_, ⟨rfl, rfl, rfl⟩, ⟨rfl, rfl, rfl⟩⟩
  cases h : routeTool { server with request_count := server.request_count + 1 }
      env name arguments with
  | ok s => simp [handle_call_tool, h, frameOk]
  | error e => simp [handle_call_tool, h, frameOk]

/-- Claim C10: for every tool name absent from the catalog and every
argument map, `validate_tool_arguments` absorbs the lookup failure and
returns an ordinary `false` (it is a total boolean function). -/
theorem validate_unknown_tool_false (name : String) (arguments : ArgumentMap)
    (h : knownToolName name = false) :
    validate_tool_arguments name arguments = false := by
  have hfind : get_all_tools.find? (fun t => t.name == name) = Option.none := by
    rw [List.find?_eq_none]
    intro t ht hp
    rw [knownToolName] at h
    have : get_all_tools.any (fun t => t.name == name) = true :=
      List.any_eq_true.mpr ⟨t, ht, hp⟩
    rw [h] at this
    exact Bool.false_ne_true this
  simp [validate_tool_arguments, get_tool_by_name, hfind]

/-- Witness for C10 at the concrete absent name `nope`. -/
theorem validate_unknown_tool_false_witness :
    validate_tool_arguments "nope" [] = false :=
  validate_unknown_tool_false "nope" [] (by decide)

/-- Claim C4: `math_add` fails when `a` or `b` is missing or fails float
coercion, and otherwise succeeds with text ending in the rendered sum; at
the concrete inputs of the spec, `(a, b) = (10, 5)` dispatches to a success
text containing `15`, and a non-numeric `a` dispatches to an error. -/
theorem math_add_spec (arguments : ArgumentMap) :
    ((getArg arguments "a" = Option.none ∨ getArg arguments "b" = Option.none) →
       handle_math_add arguments
         = Except.error "Missing required parameters: a and b")
    ∧ (∀ va vb, getArg arguments "a" = some va → getArg arguments "b" = some vb →
        ((pyFloat? va = Option.none ∨ pyFloat? vb = Option.none) →
           ∃ m, handle_math_add arguments
             = Except.error ("Invalid number format: " ++ m))
        ∧ (∀ a b, pyFloat? va = some a → pyFloat? vb = some b →
             handle_math_add arguments
               = Except.ok (floatStr a ++ " + " ++ floatStr b ++ " = "
                   ++ floatStr (a + b))))
    ∧ (∀ st env, routeTool st env "math_add"
         [("a", Value.int 10), ("b", Value.int 5)]
         = Except.ok "10.0 + 5.0 = 15.0")
    ∧ strContains "10.0 + 5.0 = 15.0" "15" = true
    ∧ (∀ st env, routeTool st env "math_add"
         [("a", Value.str "x"), ("b", Value.int 5)]
         = Except.error ("Invalid number format: "
             ++ "could not convert string to float: x")) := by
  refine ⟨?_, ?_, fun st env => ?_, by decide, fun st env => by rfl⟩
  case refine_3 =>
    have h1 : routeTool st env "math_add" [("a", Value.int 10), ("b", Value.int 5)]
        = Except.ok (floatStr 10 ++ " + " ++ floatStr 5 ++ " = "
            ++ floatStr ((10 : Rat) + (5 : Rat))) := rfl
    rw [h1, show ((10 : Rat) + (5 : Rat)) = 15 by norm_num]
    rfl
  · intro h
    rcases h with ha | hb
    · cases hb2 : getArg arguments "b" with
      | none => simp [handle_math_add, ha, hb2]
      | some vb => simp [handle_math_add, ha, hb2]
    · cases ha2 : getArg arguments "a" with
      | none => simp [handle_math_add, ha2, hb]
      | some va => simp [handle_math_add, ha2, hb]
  · intro va vb hva hvb
    constructor
    · intro h
      cases hfa : pyFloat? va with
      | none =>
        exact ⟨floatCoerceErr va, by simp [handle_math_add, hva, hvb, hfa]⟩
      | some a =>
        cases hfb : pyFloat? vb with
        | none =>
          exact ⟨floatCoerceErr vb, by simp [handle_math_add, hva, hvb, hfa, hfb]⟩
        | some b =>
          exfalso
          rcases h with h | h
          · rw [hfa] at h; exact Option.some_ne_none a h
          · rw [hfb] at h; exact Option.some_ne_none b h
    · intro a b hfa hfb
      simp [handle_math_add, hva, hvb, hfa, hfb]

/-- Witness for C4: adding the concrete arguments 10 and 5 through the
routing layer produces the success text `10.0 + 5.0 = 15.0`. -/
theorem math_add_spec_witness :
    routeTool stateExample envExample "math_add"
      [("a", Value.int 10), ("b", Value.int 5)]
      = Except.ok "10.0 + 5.0 = 15.0" :=
  (math_add_spec [("a", Value.int 10), ("b", Value.int 5)]).2.2.1
    stateExample envExample

/-- Claim C5: for every valid `format` (iso, timestamp, readable or absent,
the default being readable) the response is the format-selected rendering of
the current clock reading followed by `tzSuffix`, the only place the
supplied timezone appears (it is never applied to the clock value); a
present but unknown format fails. -/
theorem get_time_spec (env : PyEnv) (arguments : ArgumentMap) :
    (getArgD arguments "format" (Value.str "readable") = Value.str "iso" →
       handle_get_time env arguments
         = Except.ok ("Current time: " ++ env.now.isoformat ++ tzSuffix arguments))
    ∧ (getArgD arguments "format" (Value.str "readable") = Value.str "timestamp" →
       handle_get_time env arguments
         = Except.ok ("Current time: " ++ floatStr env.now.epochSeconds
             ++ tzSuffix arguments))
    ∧ (getArgD arguments "format" (Value.str "readable") = Value.str "readable" →
       handle_get_time env arguments
         = Except.ok ("Current time: " ++ env.now.readable ++ tzSuffix arguments))
    ∧ (∀ fmt, getArgD arguments "format" (Value.str "readable") = fmt →
       fmt ≠ Value.str "iso" → fmt ≠ Value.str "timestamp" →
       fmt ≠ Value.str "readable" →
       handle_get_time env arguments
         = Except.error ("Unknown time format: " ++ pyStr fmt)) := by
  refine ⟨fun h => ?_, fun h => ?_, fun h => ?_, fun fmt h h1 h2 h3 => ?_⟩
  · simp [handle_get_time, h]
  · simp [handle_get_time, h]
  · simp [handle_get_time, h]
  · simp [handle_get_time, h, h1, h2, h3]

/-- Witness for C5: the concrete invalid format `bogus` fails with the
unknown-format error, under a supplied timezone value. -/
theorem get_time_spec_witness :
    handle_get_time envExample
      [("format", Value.str "bogus"), ("timezone", Value.str "UTC")]
      = Except.error ("Unknown time format: " ++ pyStr (Value.str "bogus")) :=
  (get_time_spec envExample
    [("format", Value.str "bogus"), ("timezone", Value.str "UTC")]).2.2.2
    (Value.str "bogus") (by rfl) (by decide) (by decide) (by decide)

/-- Claim C6: `echo` fails when `message` is absent and otherwise returns
exactly the prefix (default `Echo: `) concatenated with the message,
unmodified; in particular dispatching echo with message `hi` and prefix
`X: ` yields the text `X: hi`. -/
theorem echo_spec (arguments : ArgumentMap) :
    (getArg arguments "message" = Option.none →
       handle_echo arguments
         = Except.error "Missing required parameter: message")
    ∧ (∀ m, getArg arguments "message" = some m →
       handle_echo arguments
         = Except.ok (pyStr (getArgD arguments "prefix" (Value.str "Echo: "))
             ++ pyStr m))
    ∧ (∀ msg pfx : String,
       handle_echo [("message", Value.str msg), ("prefix", Value.str pfx)]
         = Except.ok (pfx ++ msg))
    ∧ (∀ msg : String,
       handle_echo [("message", Value.str msg)]
         = Except.ok ("Echo: " ++ msg))
    ∧ (∀ st env, routeTool st env "echo"
         [("message", Value.str "hi"), ("prefix", Value.str "X: ")]
         = Except.ok "X: hi") := by
  refine ⟨fun h => ?_, fun m h => ?_, fun msg pfx => ?_, fun msg => ?_,
    fun st env => by rfl⟩
  · simp [handle_echo, h]
  · simp [handle_echo, h]
  · simp [handle_echo, getArg, getArgD, List.find?, pyStr]
  · simp [handle_echo, getArg, getArgD, List.find?, pyStr]

/-- Witness for C6: echoing the concrete message `hi` with prefix `X: `
yields exactly `X: hi`. -/
theorem echo_spec_witness :
    routeTool stateExample envExample "echo"
      [("message", Value.str "hi"), ("prefix", Value.str "X: ")]
      = Except.ok "X: hi" :=
  (echo_spec [("message", Value.str "hi"), ("prefix", Value.str "X: ")]).2.2.2.2
    stateExample envExample

/-- Pointwise-equal predicates give equal `all` results. -/
theorem all_congr_on {α : Type} (p q : α → Bool) :
    ∀ l : List α, (∀ a ∈ l, p a = q a) → l.all p = l.all q
  | [], _ => rfl
  | a :: rest, h => by
    rw [List.all_cons, List.all_cons,
      h a (List.mem_cons_self a rest),
      all_congr_on p q rest (fun b hb => h b (List.mem_cons_of_mem a hb))]

/-- Appending a binding for a different key does not change key presence. -/
theorem hasArg_append_single (l : ArgumentMap) (f k : String) (v : Value)
    (hne : f ≠ k) : hasArg (l ++ [(f, v)]) k = hasArg l k := by
  have hsingle : ([(f, v)] : ArgumentMap).find? (fun p => p.1 == k)
      = Option.none := by
    have hb : (f == k) = false := beq_eq_false_iff_ne.mpr hne
    simp [List.find?, hb]
  simp [hasArg, getArg, List.find?_append, hsingle]

/-- Claim C3 as stated is false at this input: the `a` parameter of
`math_add` is declared with type `number`, the supplied value is the Python
boolean `True` — whose runtime type is boolean, not one of int/float — yet
validation succeeds, because the validator uses
`isinstance(value, (int, float))` and Python `bool` is a subclass of `int`. -/
theorem validate_bool_passes_number_counterexample :
    declaredType "math_add" "a" = some "number"
    ∧ isPyBool (Value.bool true) = true
    ∧ isPyStr (Value.bool true) = false
    ∧ validate_tool_arguments "math_add"
        [("a", Value.bool true), ("b", Value.int 1)] = true :=
  ⟨rfl, rfl, rfl, rfl⟩

/-- Claim C3 (amended): for every catalog tool, validation fails when a
declared required parameter is absent, and when a supplied declared field
fails the `isinstance` check for its declared type — where, following
Python, a boolean passes a declared `number` field since `bool` subclasses
`int`; supplied fields not declared in the schema never change the
validation outcome; and `validate("echo", {})` is false while
`validate("echo", {"message": "hi"})` is true. -/
theorem validate_schema_checks (tool_name : String) (arguments : ArgumentMap)
    (hknown : knownToolName tool_name = true) :
    (∀ r, r ∈ requiredOf tool_name → hasArg arguments r = false →
       validate_tool_arguments tool_name arguments = false)
    ∧ (∀ f v ty, (f, v) ∈ arguments → declaredType tool_name f = some ty →
       typeMatches ty v = false →
       validate_tool_arguments tool_name arguments = false)
    ∧ (∀ f v, declaredType tool_name f = Option.none →
       validate_tool_arguments tool_name (arguments ++ [(f, v)])
         = validate_tool_arguments tool_name arguments)
    ∧ validate_tool_arguments "echo" [] = false
    ∧ validate_tool_arguments "echo" [("message", Value.str "hi")] = true := by
  obtain ⟨t, hfind⟩ :
      ∃ t, get_all_tools.find? (fun t2 => t2.name == tool_name) = some t := by
    rw [knownToolName] at hknown
    obtain ⟨x, hxmem, hxp⟩ := List.any_eq_true.mp hknown
    cases hf : get_all_tools.find? (fun t2 => t2.name == tool_name) with
    | some t => exact ⟨t, rfl⟩
    | none => exact absurd hxp (List.find?_eq_none.mp hf x hxmem)
  have htool : get_tool_by_name tool_name = Except.ok t := by
    simp [get_tool_by_name, hfind]
  have htmem : t ∈ get_all_tools := List.mem_of_find?_eq_some hfind
  refine ⟨?_, ?_, ?_, rfl, rfl⟩
  · intro r hr hmiss
    simp only [requiredOf, htool] at hr
    have hreq : t.inputSchema.required.all (fun field => hasArg arguments field)
        = false := by
      cases hq : t.inputSchema.required.all (fun field => hasArg arguments field) with
      | false => rfl
      | true =>
        have h2 := List.all_eq_true.mp hq r hr
        rw [hmiss] at h2
        exact absurd h2 (by simp)
    simp [validate_tool_arguments, htool, hreq]
  · intro f v ty hmem hdecl htype
    simp only [declaredType, htool, Option.map_eq_some'] at hdecl
    obtain ⟨ps, hps, hty⟩ := hdecl
    have hitems : arguments.all (fun p =>
        match lookupProp t.inputSchema.properties p.1 with
        | Option.none => true
        | some ps2 => typeMatches ps2.type p.2) = false := by
      cases hq : arguments.all (fun p =>
          match lookupProp t.inputSchema.properties p.1 with
          | Option.none => true
          | some ps2 => typeMatches ps2.type p.2) with
      | false => rfl
      | true =>
        have h2 := List.all_eq_true.mp hq (f, v) hmem
        simp only [hps] at h2
        rw [hty, htype] at h2
        exact absurd h2 (by simp)
    simp [validate_tool_arguments, htool, hitems]
  · intro f v hundecl
    simp only [declaredType, htool, Option.map_eq_none'] at hundecl
    have hreqdecl : ∀ t2 ∈ get_all_tools, ∀ r ∈ t2.inputSchema.required,
        (lookupProp t2.inputSchema.properties r).isSome = true := by decide
    have hpres : ∀ r ∈ t.inputSchema.required,
        hasArg (arguments ++ [(f, v)]) r = hasArg arguments r := by
      intro r hr
      have hrS := hreqdecl t htmem r hr
      have hrne : f ≠ r := by
        intro hEq
        rw [← hEq, hundecl] at hrS
        exact absurd hrS (by simp)
      exact hasArg_append_single arguments f r v hrne
    have hreqeq :
        t.inputSchema.required.all (fun field => hasArg (arguments ++ [(f, v)]) field)
          = t.inputSchema.required.all (fun field => hasArg arguments field) :=
      all_congr_on _ _ _ hpres

    have hlast : (fun p =>
        match lookupProp t.inputSchema.properties p.1 with
        | Option.none => true
        | some ps2 => typeMatches ps2.type p.2) (f, v) = true := by
      simp [hundecl]
    simp only [validate_tool_arguments, htool, List.all_append, hreqeq]
    rw [show (([(f, v)] : ArgumentMap).all (fun p =>
        match lookupProp t.inputSchema.properties p.1 with
        | Option.none => true
        | some ps2 => typeMatches ps2.type p.2)) = true by simp [hundecl]]
    simp

/-- Witness for the amended C3 at the concrete catalog tool `echo`. -/
theorem validate_schema_checks_witness :
    validate_tool_arguments "echo" [] = false :=
  (validate_schema_checks "echo" [] (by decide)).2.2.2.1

end MCP
